import Mathlib

/-!
# NVKMD inline wrappers (`src/nouveau/vulkan/nvkmd/nvkmd.h`)

A shallow embedding of the inline wrapper layer of NVKMD.

* Objects (`nvkmd_pdev`, `nvkmd_dev`, `nvkmd_mem`, `nvkmd_va`) are records of
  their C fields.  Pointers are addresses (`Ptr`, with `NULL = 0`); machine
  integers are naturals, reduced modulo `2 ^ 64` / `2 ^ 32` where the C
  arithmetic wraps.
* A backend is a family of operation tables reached through the `ops`
  pointer of each object (`OpsTables`).  An operation that receives an object
  through a non-const pointer returns the object it leaves behind.
  Operations the wrappers call unconditionally are functions; the two
  operations the wrappers compare against `NULL` are optional.
* A wrapper runs in `Run`: it records every backend operation it invokes
  (`Call`) and either returns a value or stops at a failed `assert`.
  Assertions are evaluated, as in a build without `NDEBUG`.
-/

namespace Nvkmd

/-! ## Scalars -/

/-- Status code of the driver API (`VkResult`). -/
abbrev VkResult := Int

/-- The success status. -/
def VK_SUCCESS : VkResult := 0

/-- An address; `void *` and object pointers. -/
abbrev Ptr := Nat

/-- The null pointer. -/
def NULL : Ptr := 0

/-- Number of values of a `uint64_t`. -/
def UINT64_MOD : Nat := 2 ^ 64

/-- Number of values of a `uint32_t`. -/
def UINT32_MOD : Nat := 2 ^ 32

/-- Sum of two `uint64_t` values, as C computes it. -/
def add_u64 (a b : Nat) : Nat := (a + b) % UINT64_MOD

/-! ## Enums -/

def NVKMD_MEM_LOCAL : Nat := 1 <<< 0
def NVKMD_MEM_GART : Nat := 1 <<< 1
def NVKMD_MEM_CAN_MAP : Nat := 1 <<< 2
def NVKMD_MEM_NO_SHARE : Nat := 1 <<< 3

def NVKMD_MEM_MAP_RD : Nat := 1 <<< 0
def NVKMD_MEM_MAP_WR : Nat := 1 <<< 1
def NVKMD_MEM_MAP_RDWR : Nat := NVKMD_MEM_MAP_RD ||| NVKMD_MEM_MAP_WR
def NVKMD_MEM_MAP_FIXED : Nat := 1 <<< 2

def NVKMD_VA_SPARSE : Nat := 1 <<< 0
def NVKMD_VA_REPLAY : Nat := 1 <<< 1
def NVKMD_VA_ALLOC_FIXED : Nat := 1 <<< 2

/-! ## Structs -/

/-- Feature-support record of a backend (`struct nvkmd_info`). -/
structure nvkmd_info where
  has_dma_buf : Bool
  has_get_vram_used : Bool
  has_alloc_tiled : Bool
  has_map_fixed : Bool
  has_overmap : Bool
deriving DecidableEq, Repr

/-- Physical device (`struct nvkmd_pdev`).  The fields `dev_info` and
`sync_types`, whose types are declared in other headers, are left out. -/
structure nvkmd_pdev where
  ops : Ptr
  kmd_info : nvkmd_info
  drm_render_dev : Nat
  drm_primary_dev : Nat
deriving DecidableEq, Repr

/-- Device context (`struct nvkmd_dev`): only the operation table pointer. -/
structure nvkmd_dev where
  ops : Ptr
deriving DecidableEq, Repr

/-- Memory object (`struct nvkmd_mem`). -/
structure nvkmd_mem where
  ops : Ptr
  refcnt : Nat
  flags : Nat
  size_B : Nat
  va : Ptr
  map : Ptr
deriving DecidableEq, Repr

/-- Virtual address range (`struct nvkmd_va`). -/
structure nvkmd_va where
  ops : Ptr
  flags : Nat
  pte_kind : Nat
  addr : Nat
  size_B : Nat
deriving DecidableEq, Repr

/-- Operations of a physical device (`struct nvkmd_pdev_ops`), those the
modelled wrappers dispatch to. -/
structure nvkmd_pdev_ops where
  get_drm_primary_fd : Option (nvkmd_pdev → Int)
  create_dev : nvkmd_pdev → Ptr → Option nvkmd_dev → VkResult × Option nvkmd_dev

/-- Operations of a device context (`struct nvkmd_dev_ops`), those the
modelled wrappers dispatch to.  The cell `*mem_out` is passed in and the cell
the operation leaves is passed back. -/
structure nvkmd_dev_ops where
  get_drm_fd : Option (nvkmd_dev → Int)
  alloc_tiled_mem : nvkmd_dev → Ptr → Nat → Nat → Nat → Nat → Nat →
    Option nvkmd_mem → VkResult × Option nvkmd_mem

/-- Operations of a memory object (`struct nvkmd_mem_ops`). -/
structure nvkmd_mem_ops where
  map : nvkmd_mem → Ptr → Nat → Ptr → VkResult × nvkmd_mem
  unmap : nvkmd_mem → nvkmd_mem
  overmap : nvkmd_mem → Ptr → VkResult × nvkmd_mem
  export_dma_buf : nvkmd_mem → Ptr → Int → VkResult × nvkmd_mem × Int

/-- Operations of a virtual address range (`struct nvkmd_va_ops`). -/
structure nvkmd_va_ops where
  bind_mem : nvkmd_va → Ptr → Nat → nvkmd_mem → Nat → Nat →
    VkResult × nvkmd_va × nvkmd_mem
  unbind : nvkmd_va → Ptr → Nat → Nat → VkResult × nvkmd_va

/-- The operation tables in memory: what each `ops` pointer points to. -/
structure OpsTables where
  pdev_ops : Ptr → nvkmd_pdev_ops
  dev_ops : Ptr → nvkmd_dev_ops
  mem_ops : Ptr → nvkmd_mem_ops
  va_ops : Ptr → nvkmd_va_ops

/-! ## Runs of a wrapper -/

/-- One invocation of a backend operation, with the arguments it received. -/
inductive Call where
  | get_drm_primary_fd (pdev : nvkmd_pdev)
  | create_dev (pdev : nvkmd_pdev) (log_obj : Ptr)
  | get_drm_fd (dev : nvkmd_dev)
  | alloc_tiled_mem (dev : nvkmd_dev) (log_obj : Ptr) (size_B align_B : Nat)
      (pte_kind tile_mode flags : Nat)
  | map (mem : nvkmd_mem) (log_obj : Ptr) (flags : Nat) (fixed_addr : Ptr)
  | unmap (mem : nvkmd_mem)
  | overmap (mem : nvkmd_mem) (log_obj : Ptr)
  | export_dma_buf (mem : nvkmd_mem) (log_obj : Ptr)
  | bind_mem (va : nvkmd_va) (log_obj : Ptr) (va_offset_B : Nat)
      (mem : nvkmd_mem) (mem_offset_B range_B : Nat)
  | unbind (va : nvkmd_va) (log_obj : Ptr) (va_offset_B range_B : Nat)
deriving DecidableEq, Repr

/-- How a wrapper ends: at a failed `assert`, or by returning. -/
inductive Outcome (α : Type) where
  | assert_failed
  | returned (a : α)
deriving DecidableEq, Repr

/-- A run of a wrapper: the backend operations invoked, in order, and the
way the run ended. -/
structure Run (α : Type) where
  calls : List Call
  outcome : Outcome α
deriving DecidableEq, Repr

/-- A run that returns at once. -/
def Run.ret {α : Type} (a : α) : Run α := ⟨[], .returned a⟩

/-- Sequencing: the rest of the wrapper runs only if no assertion failed. -/
def Run.andThen {α β : Type} (m : Run α) (f : α → Run β) : Run β :=
  match m.outcome with
  | .assert_failed => ⟨m.calls, .assert_failed⟩
  | .returned a => ⟨m.calls ++ (f a).calls, (f a).outcome⟩

instance : Monad Run where
  pure := Run.ret
  bind := Run.andThen

/-- The C `assert(c)`. -/
def c_assert (c : Prop) [Decidable c] : Run Unit :=
  if c then ⟨[], .returned ()⟩ else ⟨[], .assert_failed⟩

/-- A backend operation is invoked: the call is recorded and its result is
handed to the rest of the wrapper. -/
def invoke {α : Type} (c : Call) (result : α) : Run α := ⟨[c], .returned result⟩

/-! ## Methods -/

/-- The wrapper `nvkmd_pdev_get_drm_primary_fd`. -/
def nvkmd_pdev_get_drm_primary_fd (T : OpsTables) (pdev : nvkmd_pdev) : Run Int :=
  match (T.pdev_ops pdev.ops).get_drm_primary_fd with
  | none => pure (-1)
  | some f => invoke (.get_drm_primary_fd pdev) (f pdev)

/-- The wrapper `nvkmd_pdev_create_dev`. -/
def nvkmd_pdev_create_dev (T : OpsTables) (pdev : nvkmd_pdev) (log_obj : Ptr)
    (dev_out : Option nvkmd_dev) : Run (VkResult × Option nvkmd_dev) :=
  invoke (.create_dev pdev log_obj)
    ((T.pdev_ops pdev.ops).create_dev pdev log_obj dev_out)

/-- The wrapper `nvkmd_dev_get_drm_fd`. -/
def nvkmd_dev_get_drm_fd (T : OpsTables) (dev : nvkmd_dev) : Run Int :=
  match (T.dev_ops dev.ops).get_drm_fd with
  | none => pure (-1)
  | some f => invoke (.get_drm_fd dev) (f dev)

/-- The wrapper `nvkmd_dev_alloc_tiled_mem`. -/
def nvkmd_dev_alloc_tiled_mem (T : OpsTables) (dev : nvkmd_dev) (log_obj : Ptr)
    (size_B align_B : Nat) (pte_kind tile_mode flags : Nat)
    (mem_out : Option nvkmd_mem) : Run (VkResult × Option nvkmd_mem) :=
  invoke (.alloc_tiled_mem dev log_obj size_B align_B pte_kind tile_mode flags)
    ((T.dev_ops dev.ops).alloc_tiled_mem dev log_obj size_B align_B
      pte_kind tile_mode flags mem_out)

/-- Modelled from the spec: `p_atomic_inc` of `util/u_atomic.h`, which is not
among the sources; the spec has the counter go up by one, atomically, and the
field it is applied to is a `uint32_t`. -/
def p_atomic_inc (v : Nat) : Nat := (v + 1) % UINT32_MOD

/-- The wrapper `nvkmd_mem_ref`; invokes no backend operation. -/
def nvkmd_mem_ref (mem : nvkmd_mem) : nvkmd_mem :=
  { mem with refcnt := p_atomic_inc mem.refcnt }

/-- The wrapper `nvkmd_mem_map`.  Returns the status, the memory object and the
cell `*map_out`. -/
def nvkmd_mem_map (T : OpsTables) (mem : nvkmd_mem) (log_obj : Ptr) (flags : Nat)
    (fixed_addr : Ptr) (map_out : Ptr) : Run (VkResult × nvkmd_mem × Ptr) := do
  c_assert (mem.map = NULL)
  let (result, mem) ← invoke (.map mem log_obj flags fixed_addr)
    ((T.mem_ops mem.ops).map mem log_obj flags fixed_addr)
  if result ≠ VK_SUCCESS then
    return (result, mem, map_out)
  let map_out := mem.map
  return (VK_SUCCESS, mem, map_out)

/-- The wrapper `nvkmd_mem_unmap`.  Returns the memory object. -/
def nvkmd_mem_unmap (T : OpsTables) (mem : nvkmd_mem) : Run nvkmd_mem := do
  c_assert (mem.map ≠ NULL)
  let mem ← invoke (.unmap mem) ((T.mem_ops mem.ops).unmap mem)
  c_assert (mem.map = NULL)
  return mem

/-- The wrapper `nvkmd_mem_overmap`.  Returns the status and the memory
object. -/
def nvkmd_mem_overmap (T : OpsTables) (mem : nvkmd_mem) (log_obj : Ptr) :
    Run (VkResult × nvkmd_mem) := do
  c_assert (mem.map ≠ NULL)
  let (result, mem) ← invoke (.overmap mem log_obj)
    ((T.mem_ops mem.ops).overmap mem log_obj)
  c_assert (mem.map = NULL)
  return (result, mem)

/-- The wrapper `nvkmd_mem_export_dma_buf`.  Returns the status, the memory
object and the cell `*fd_out`. -/
def nvkmd_mem_export_dma_buf (T : OpsTables) (mem : nvkmd_mem) (log_obj : Ptr)
    (fd_out : Int) : Run (VkResult × nvkmd_mem × Int) := do
  c_assert (mem.flags &&& NVKMD_MEM_NO_SHARE = 0)
  invoke (.export_dma_buf mem log_obj)
    ((T.mem_ops mem.ops).export_dma_buf mem log_obj fd_out)

/-- The wrapper `nvkmd_va_bind_mem`.  Returns the status, the range and the
memory object. -/
def nvkmd_va_bind_mem (T : OpsTables) (va : nvkmd_va) (log_obj : Ptr)
    (va_offset_B : Nat) (mem : nvkmd_mem) (mem_offset_B range_B : Nat) :
    Run (VkResult × nvkmd_va × nvkmd_mem) := do
  c_assert (va_offset_B ≤ va.size_B)
  c_assert (add_u64 va_offset_B range_B ≤ va.size_B)
  c_assert (mem_offset_B ≤ mem.size_B)
  c_assert (add_u64 mem_offset_B range_B ≤ mem.size_B)
  invoke (.bind_mem va log_obj va_offset_B mem mem_offset_B range_B)
    ((T.va_ops va.ops).bind_mem va log_obj va_offset_B mem mem_offset_B range_B)

/-- The wrapper `nvkmd_va_unbind`.  Returns the status and the range. -/
def nvkmd_va_unbind (T : OpsTables) (va : nvkmd_va) (log_obj : Ptr)
    (va_offset_B range_B : Nat) : Run (VkResult × nvkmd_va) := do
  c_assert (va_offset_B ≤ va.size_B)
  c_assert (add_u64 va_offset_B range_B ≤ va.size_B)
  invoke (.unbind va log_obj va_offset_B range_B)
    ((T.va_ops va.ops).unbind va log_obj va_offset_B range_B)


/-! ## Sample backends -/

/-- A backend memory table that maps at the requested address (or at a fixed
one of its own), clears the mapping on unmap and overmap, and exports
descriptor 3. -/
def sample_mem_ops : nvkmd_mem_ops where
  map := fun mem _ _ fixed_addr =>
    (VK_SUCCESS, { mem with map := if fixed_addr = NULL then 0x7000 else fixed_addr })
  unmap := fun mem => { mem with map := NULL }
  overmap := fun mem _ => (VK_SUCCESS, { mem with map := NULL })
  export_dma_buf := fun mem _ _ => (VK_SUCCESS, mem, 3)

/-- A backend range table that accepts every bind and unbind. -/
def sample_va_ops : nvkmd_va_ops where
  bind_mem := fun va _ _ mem _ _ => (VK_SUCCESS, va, mem)
  unbind := fun va _ _ _ => (VK_SUCCESS, va)

/-- A backend device table without `get_drm_fd`, whose tiled allocation
succeeds with a fresh local memory object. -/
def sample_dev_ops : nvkmd_dev_ops where
  get_drm_fd := none
  alloc_tiled_mem := fun _ _ size_B _ _ _ flags _ =>
    (VK_SUCCESS, some ⟨0, 1, flags, size_B, NULL, NULL⟩)

/-- A backend physical-device table without `get_drm_primary_fd`. -/
def sample_pdev_ops : nvkmd_pdev_ops where
  get_drm_primary_fd := none
  create_dev := fun _ _ _ => (VK_SUCCESS, some ⟨0⟩)

/-- The sample backend. -/
def sample_tables : OpsTables where
  pdev_ops := fun _ => sample_pdev_ops
  dev_ops := fun _ => sample_dev_ops
  mem_ops := fun _ => sample_mem_ops
  va_ops := fun _ => sample_va_ops

/-- A backend whose `unmap` leaves the mapping recorded. -/
def stale_unmap_tables : OpsTables :=
  { sample_tables with
    mem_ops := fun _ => { sample_mem_ops with unmap := fun mem => mem } }

/-- A backend that supplies both descriptor queries. -/
def fd_tables : OpsTables :=
  { sample_tables with
    pdev_ops := fun _ => { sample_pdev_ops with get_drm_primary_fd := some (fun _ => 5) }
    dev_ops := fun _ => { sample_dev_ops with get_drm_fd := some (fun _ => 7) } }

/-- A physical device of the sample backend; it reports no tiled allocation. -/
def sample_pdev : nvkmd_pdev := ⟨0, ⟨true, false, false, false, false⟩, 226, 226⟩

/-- The device context the sample backend creates. -/
def sample_dev : nvkmd_dev := ⟨0⟩

/-- An unmapped 4 KiB memory object with one reference. -/
def sample_mem : nvkmd_mem := ⟨0, 1, NVKMD_MEM_LOCAL ||| NVKMD_MEM_CAN_MAP, 4096, NULL, NULL⟩

/-- The same memory object, mapped. -/
def sample_mapped_mem : nvkmd_mem := { sample_mem with map := 0x7000 }

/-- A 4 KiB range. -/
def sample_va : nvkmd_va := ⟨0, 0, 0, 0x100000, 4096⟩

/-! ## Facts about runs -/

theorem run_assert_bind {α : Type} (c : Prop) [Decidable c] (f : Unit → Run α) :
    (c_assert c >>= f) = if c then f () else ⟨[], .assert_failed⟩ := by
  by_cases h : c <;> simp [c_assert, h, bind, Run.andThen]

theorem run_invoke_bind {α β : Type} (c : Call) (r : α) (f : α → Run β) :
    (invoke c r >>= f) = ⟨c :: (f r).calls, (f r).outcome⟩ := by
  simp [invoke, bind, Run.andThen]

theorem run_pure {α : Type} (a : α) : (pure a : Run α) = ⟨[], .returned a⟩ := rfl

theorem run_returned_bind {α β : Type} (cs : List Call) (a : α) (f : α → Run β) :
    ((⟨cs, .returned a⟩ : Run α) >>= f) = ⟨cs ++ (f a).calls, (f a).outcome⟩ := by
  simp [bind, Run.andThen]

/-! ## Mapping -/

/-- C3: `nvkmd_mem_map` stops at its first assertion, with no backend
operation invoked, when `mem.map` is already non-null.  When `mem.map` is
null it invokes the backend's `map` exactly once, with the arguments it was
given; if the backend answers `VK_SUCCESS` it returns `VK_SUCCESS` and
`*map_out` holds the `map` field the backend recorded; if the backend answers
another status it returns that status and `*map_out` keeps its old content. -/
theorem nvkmd_mem_map_spec (T : OpsTables) (mem : nvkmd_mem) (log_obj : Ptr)
    (flags : Nat) (fixed_addr map_out : Ptr) :
    (mem.map ≠ NULL →
      nvkmd_mem_map T mem log_obj flags fixed_addr map_out = ⟨[], .assert_failed⟩) ∧
    (mem.map = NULL →
      (nvkmd_mem_map T mem log_obj flags fixed_addr map_out).calls
        = [Call.map mem log_obj flags fixed_addr] ∧
      (((T.mem_ops mem.ops).map mem log_obj flags fixed_addr).1 = VK_SUCCESS →
        (nvkmd_mem_map T mem log_obj flags fixed_addr map_out).outcome
          = .returned (VK_SUCCESS,
              ((T.mem_ops mem.ops).map mem log_obj flags fixed_addr).2,
              ((T.mem_ops mem.ops).map mem log_obj flags fixed_addr).2.map)) ∧
      (((T.mem_ops mem.ops).map mem log_obj flags fixed_addr).1 ≠ VK_SUCCESS →
        (nvkmd_mem_map T mem log_obj flags fixed_addr map_out).outcome
          = .returned (((T.mem_ops mem.ops).map mem log_obj flags fixed_addr).1,
              ((T.mem_ops mem.ops).map mem log_obj flags fixed_addr).2,
              map_out))) := by
  refine ⟨fun h => ?_, fun h => ?_⟩
  · simp [nvkmd_mem_map, run_assert_bind, h]
  · by_cases hr : ((T.mem_ops mem.ops).map mem log_obj flags fixed_addr).1 = VK_SUCCESS
    · simp [nvkmd_mem_map, run_assert_bind, run_invoke_bind, run_pure, run_returned_bind, h, hr]
    · simp [nvkmd_mem_map, run_assert_bind, run_invoke_bind, run_pure, run_returned_bind, h, hr]

/-- C3, on the sample backend: mapping the unmapped sample object succeeds and
`*map_out` receives the address the backend recorded. -/
theorem nvkmd_mem_map_spec_witness :
    sample_mem.map = NULL ∧
    (nvkmd_mem_map sample_tables sample_mem 0 NVKMD_MEM_MAP_RDWR NULL 0).outcome
      = .returned (VK_SUCCESS, sample_mapped_mem, 0x7000) :=
  ⟨rfl, ((nvkmd_mem_map_spec sample_tables sample_mem 0 NVKMD_MEM_MAP_RDWR NULL 0).2
    rfl).2.1 rfl⟩

/-- C4, as stated, fails: on a backend whose `unmap` leaves `mem.map` recorded,
`nvkmd_mem_unmap` of a mapped object invokes the backend and then stops at
its trailing assertion; it does not complete. -/
theorem nvkmd_mem_unmap_stale_backend :
    sample_mapped_mem.map ≠ NULL ∧
    nvkmd_mem_unmap stale_unmap_tables sample_mapped_mem
      = ⟨[Call.unmap sample_mapped_mem], .assert_failed⟩ := by
  constructor
  · decide
  · rfl

/-- C4, amended: for a memory object whose `map` is non-null,
`nvkmd_mem_unmap` invokes the backend's `unmap` exactly once and writes no
field itself; it completes exactly when the backend left `mem.map` null, and
then hands back the backend's object, whose `map` is null; when the backend
left `mem.map` non-null it stops at the trailing assertion.  For a memory
object whose `map` is null it stops at the first assertion with no backend
operation invoked. -/
theorem nvkmd_mem_unmap_spec (T : OpsTables) (mem : nvkmd_mem) :
    (mem.map ≠ NULL →
      (nvkmd_mem_unmap T mem).calls = [Call.unmap mem] ∧
      (((T.mem_ops mem.ops).unmap mem).map = NULL →
        (nvkmd_mem_unmap T mem).outcome = .returned ((T.mem_ops mem.ops).unmap mem)) ∧
      (((T.mem_ops mem.ops).unmap mem).map ≠ NULL →
        (nvkmd_mem_unmap T mem).outcome = .assert_failed) ∧
      (∀ mem1, (nvkmd_mem_unmap T mem).outcome = .returned mem1 → mem1.map = NULL)) ∧
    (mem.map = NULL → nvkmd_mem_unmap T mem = ⟨[], .assert_failed⟩) := by
  refine ⟨fun h => ?_, fun h => ?_⟩
  · by_cases hb : ((T.mem_ops mem.ops).unmap mem).map = NULL
    · simp [nvkmd_mem_unmap, run_assert_bind, run_invoke_bind, run_pure, h, hb]
    · simp [nvkmd_mem_unmap, run_assert_bind, run_invoke_bind, run_pure, h, hb]
  · simp [nvkmd_mem_unmap, run_assert_bind, h]

/-- C4, amended, on the sample backend: unmapping the mapped sample object
completes and leaves the unmapped sample object. -/
theorem nvkmd_mem_unmap_spec_witness :
    sample_mapped_mem.map ≠ NULL ∧
    (nvkmd_mem_unmap sample_tables sample_mapped_mem).outcome = .returned sample_mem :=
  ⟨by decide,
   ((nvkmd_mem_unmap_spec sample_tables sample_mapped_mem).1 (by decide)).2.1 rfl⟩

/-- C5: for a memory object whose `map` is non-null, `nvkmd_mem_overmap`
invokes the backend's `overmap` exactly once; whenever it returns, the status
is the backend's and `mem.map` is null; and it does return whenever the
backend left `mem.map` null.  For a memory object whose `map` is null it
stops at the first assertion with no backend operation invoked. -/
theorem nvkmd_mem_overmap_spec (T : OpsTables) (mem : nvkmd_mem) (log_obj : Ptr) :
    (mem.map ≠ NULL →
      (nvkmd_mem_overmap T mem log_obj).calls = [Call.overmap mem log_obj] ∧
      (∀ result mem1,
        (nvkmd_mem_overmap T mem log_obj).outcome = .returned (result, mem1) →
        result = ((T.mem_ops mem.ops).overmap mem log_obj).1 ∧
        mem1 = ((T.mem_ops mem.ops).overmap mem log_obj).2 ∧
        mem1.map = NULL) ∧
      (((T.mem_ops mem.ops).overmap mem log_obj).2.map = NULL →
        (nvkmd_mem_overmap T mem log_obj).outcome
          = .returned ((T.mem_ops mem.ops).overmap mem log_obj))) ∧
    (mem.map = NULL → nvkmd_mem_overmap T mem log_obj = ⟨[], .assert_failed⟩) := by
  refine ⟨fun h => ?_, fun h => ?_⟩
  · by_cases hb : ((T.mem_ops mem.ops).overmap mem log_obj).2.map = NULL
    · simp [nvkmd_mem_overmap, run_assert_bind, run_invoke_bind, run_pure, h, hb]
      intro result mem1 h1
      rw [h1] at hb
      rw [h1]
      exact ⟨rfl, rfl, hb⟩
    · simp [nvkmd_mem_overmap, run_assert_bind, run_invoke_bind, run_pure, h, hb]
  · simp [nvkmd_mem_overmap, run_assert_bind, h]

/-- C5, on the sample backend: overmapping the mapped sample object returns
the backend's success and leaves no mapping recorded. -/
theorem nvkmd_mem_overmap_spec_witness :
    sample_mapped_mem.map ≠ NULL ∧
    (nvkmd_mem_overmap sample_tables sample_mapped_mem 0).outcome
      = .returned (VK_SUCCESS, sample_mem) :=
  ⟨by decide,
   ((nvkmd_mem_overmap_spec sample_tables sample_mapped_mem 0).1 (by decide)).2.2 rfl⟩

/-! ## Export -/

/-- The test `flags & NVKMD_MEM_NO_SHARE` of the source is non-zero exactly
when bit 3 of `flags` is set. -/
theorem no_share_test_iff_bit (flags : Nat) :
    flags &&& NVKMD_MEM_NO_SHARE ≠ 0 ↔ flags.testBit 3 = true := by
  have h8 : NVKMD_MEM_NO_SHARE = 2 ^ 3 := by decide
  rw [h8]
  constructor
  · intro h
    by_contra hb
    apply h
    apply Nat.eq_of_testBit_eq
    intro i
    simp only [Nat.testBit_and, Nat.testBit_two_pow, Nat.zero_testBit]
    by_cases hi : 3 = i
    · subst hi; simpa using hb
    · simp [hi]
  · intro hb h
    have := congrArg (fun n => Nat.testBit n 3) h
    simp only [Nat.testBit_and, Nat.testBit_two_pow, hb, Nat.zero_testBit] at this
    simp at this

/-- C6: for a memory object whose flags contain `NVKMD_MEM_NO_SHARE`,
`nvkmd_mem_export_dma_buf` stops at its assertion: it invokes no backend
operation and returns nothing, in particular never success.  For a memory
object without that flag it invokes the backend's `export_dma_buf` exactly
once and returns exactly what the backend produced. -/
theorem nvkmd_mem_export_dma_buf_spec (T : OpsTables) (mem : nvkmd_mem)
    (log_obj : Ptr) (fd_out : Int) :
    (mem.flags &&& NVKMD_MEM_NO_SHARE ≠ 0 →
      (nvkmd_mem_export_dma_buf T mem log_obj fd_out).calls = [] ∧
      (nvkmd_mem_export_dma_buf T mem log_obj fd_out).outcome = .assert_failed ∧
      ∀ mem1 fd, (nvkmd_mem_export_dma_buf T mem log_obj fd_out).outcome
        ≠ .returned (VK_SUCCESS, mem1, fd)) ∧
    (mem.flags &&& NVKMD_MEM_NO_SHARE = 0 →
      nvkmd_mem_export_dma_buf T mem log_obj fd_out
        = ⟨[Call.export_dma_buf mem log_obj],
           .returned ((T.mem_ops mem.ops).export_dma_buf mem log_obj fd_out)⟩) := by
  refine ⟨fun h => ?_, fun h => ?_⟩
  · simp [nvkmd_mem_export_dma_buf, run_assert_bind, h]
  · simp [nvkmd_mem_export_dma_buf, run_assert_bind, h, invoke]

/-- C6, on the sample backend: exporting a non-shareable object stops at the
assertion with no backend operation invoked. -/
theorem nvkmd_mem_export_dma_buf_spec_witness :
    (nvkmd_mem_export_dma_buf sample_tables
      { sample_mem with flags := NVKMD_MEM_LOCAL ||| NVKMD_MEM_NO_SHARE } 0 (-1)).calls = [] :=
  ((nvkmd_mem_export_dma_buf_spec sample_tables
      { sample_mem with flags := NVKMD_MEM_LOCAL ||| NVKMD_MEM_NO_SHARE } 0 (-1)).1
    (by decide)).1

/-! ## Tiled allocation -/

/-- C7, as stated, fails: the sample backend reports `has_alloc_tiled = false`,
the device context is the one it creates, and `nvkmd_dev_alloc_tiled_mem`
returns `VK_SUCCESS` with a memory object in `*mem_out`. -/
theorem nvkmd_dev_alloc_tiled_mem_ignores_info :
    sample_pdev.kmd_info.has_alloc_tiled = false ∧
    (nvkmd_pdev_create_dev sample_tables sample_pdev 0 none).outcome
      = .returned (VK_SUCCESS, some sample_dev) ∧
    (nvkmd_dev_alloc_tiled_mem sample_tables sample_dev 0 65536 4096 0 0
        NVKMD_MEM_LOCAL none).outcome
      = .returned (VK_SUCCESS, some ⟨0, 1, NVKMD_MEM_LOCAL, 65536, NULL, NULL⟩) := by
  refine ⟨rfl, rfl, rfl⟩

/-- C7, amended: `nvkmd_dev_alloc_tiled_mem` consults no capability flag.
For every device context, whatever `has_alloc_tiled` its backend reports, and
every size, alignment, pte kind, tile mode and flags, it invokes the
backend's `alloc_tiled_mem` exactly once with the same arguments and returns
the backend's status and the backend's `*mem_out` unchanged. -/
theorem nvkmd_dev_alloc_tiled_mem_spec (T : OpsTables) (dev : nvkmd_dev)
    (log_obj : Ptr) (size_B align_B pte_kind tile_mode flags : Nat)
    (mem_out : Option nvkmd_mem) :
    nvkmd_dev_alloc_tiled_mem T dev log_obj size_B align_B pte_kind tile_mode flags mem_out
      = ⟨[Call.alloc_tiled_mem dev log_obj size_B align_B pte_kind tile_mode flags],
         .returned ((T.dev_ops dev.ops).alloc_tiled_mem dev log_obj size_B align_B
            pte_kind tile_mode flags mem_out)⟩ := rfl

/-! ## Descriptor queries -/

/-- C8: when the backend supplies no `get_drm_primary_fd`,
`nvkmd_pdev_get_drm_primary_fd` returns `-1` with no assertion failure and no
backend operation invoked; when the backend supplies it, the wrapper invokes
it once and returns exactly its value.  The same holds of
`nvkmd_dev_get_drm_fd` and the backend's `get_drm_fd`. -/
theorem nvkmd_get_drm_fd_spec (T : OpsTables) (pdev : nvkmd_pdev) (dev : nvkmd_dev) :
    ((T.pdev_ops pdev.ops).get_drm_primary_fd = none →
      nvkmd_pdev_get_drm_primary_fd T pdev = ⟨[], .returned (-1)⟩) ∧
    (∀ f, (T.pdev_ops pdev.ops).get_drm_primary_fd = some f →
      nvkmd_pdev_get_drm_primary_fd T pdev
        = ⟨[Call.get_drm_primary_fd pdev], .returned (f pdev)⟩) ∧
    ((T.dev_ops dev.ops).get_drm_fd = none →
      nvkmd_dev_get_drm_fd T dev = ⟨[], .returned (-1)⟩) ∧
    (∀ f, (T.dev_ops dev.ops).get_drm_fd = some f →
      nvkmd_dev_get_drm_fd T dev = ⟨[Call.get_drm_fd dev], .returned (f dev)⟩) := by
  refine ⟨fun h => ?_, fun f h => ?_, fun h => ?_, fun f h => ?_⟩
  · simp [nvkmd_pdev_get_drm_primary_fd, h, run_pure]
  · simp [nvkmd_pdev_get_drm_primary_fd, h, invoke]
  · simp [nvkmd_dev_get_drm_fd, h, run_pure]
  · simp [nvkmd_dev_get_drm_fd, h, invoke]

/-- C8, on two backends: the sample backend supplies neither query and the
physical device wrapper returns `-1`; a backend whose `get_drm_fd` answers 7
has the device wrapper return 7. -/
theorem nvkmd_get_drm_fd_spec_witness :
    nvkmd_pdev_get_drm_primary_fd sample_tables sample_pdev = ⟨[], .returned (-1)⟩ ∧
    nvkmd_dev_get_drm_fd fd_tables sample_dev
      = ⟨[Call.get_drm_fd sample_dev], .returned 7⟩ :=
  ⟨(nvkmd_get_drm_fd_spec sample_tables sample_pdev sample_dev).1 rfl,
   (nvkmd_get_drm_fd_spec fd_tables sample_pdev sample_dev).2.2.2 (fun _ => 7) rfl⟩

/-! ## Reference count -/

/-- C9, as stated, fails: a live memory object whose 32-bit counter is at its
largest value comes back from `nvkmd_mem_ref` with `refcnt = 0`, which is
neither one greater than before nor greater than zero. -/
theorem nvkmd_mem_ref_wraps :
    1 ≤ ({ sample_mem with refcnt := 4294967295 } : nvkmd_mem).refcnt ∧
    ({ sample_mem with refcnt := 4294967295 } : nvkmd_mem).refcnt < UINT32_MOD ∧
    (nvkmd_mem_ref { sample_mem with refcnt := 4294967295 }).refcnt = 0 := by
  refine ⟨by decide, by decide, by decide⟩

/-- C9, amended: for every live memory object whose counter is below the
largest 32-bit value (`1 ≤ refcnt ≤ 2^32 - 2`), `nvkmd_mem_ref` returns the
same object with `refcnt` exactly one greater than before and still greater
than zero, and leaves `ops`, `flags`, `size_B`, `va` and `map` unchanged. -/
theorem nvkmd_mem_ref_spec (mem : nvkmd_mem) (hlive : 1 ≤ mem.refcnt)
    (hroom : mem.refcnt < UINT32_MOD - 1) :
    (nvkmd_mem_ref mem).refcnt = mem.refcnt + 1 ∧
    0 < (nvkmd_mem_ref mem).refcnt ∧
    (nvkmd_mem_ref mem).refcnt < UINT32_MOD ∧
    (nvkmd_mem_ref mem).ops = mem.ops ∧
    (nvkmd_mem_ref mem).flags = mem.flags ∧
    (nvkmd_mem_ref mem).size_B = mem.size_B ∧
    (nvkmd_mem_ref mem).va = mem.va ∧
    (nvkmd_mem_ref mem).map = mem.map := by
  have hmod : UINT32_MOD = 4294967296 := by decide
  rw [hmod] at hroom
  have hinc : p_atomic_inc mem.refcnt = mem.refcnt + 1 := by
    unfold p_atomic_inc
    rw [hmod]
    omega
  have href : (nvkmd_mem_ref mem).refcnt = mem.refcnt + 1 := hinc
  refine ⟨href, ?_, ?_, rfl, rfl, rfl, rfl, rfl⟩
  · rw [href]; omega
  · rw [href, hmod]; omega

/-- C9, amended, on the sample object: one reference becomes two. -/
theorem nvkmd_mem_ref_spec_witness :
    (nvkmd_mem_ref sample_mem).refcnt = 2 :=
  (nvkmd_mem_ref_spec sample_mem (by decide) (by decide)).1

/-! ## Binding -/

/-- Without wrap-around the 64-bit sum is the exact sum. -/
theorem add_u64_eq_of_le (a b : Nat) (h : a + b ≤ 2 ^ 64 - 1) : add_u64 a b = a + b := by
  unfold add_u64 UINT64_MOD
  apply Nat.mod_eq_of_lt
  omega

/-- C1, at a failing input: the 4 KiB sample range and the 4 KiB sample memory
object, both offsets 4096 and `range_B = 2^64 - 4096`.  All arguments are
64-bit values and both exact sums are `2^64`, far above the sizes, yet the
64-bit sums wrap to 0, the four assertions pass and the backend's `bind_mem`
is invoked. -/
theorem nvkmd_va_bind_mem_wraps :
    18446744073709547520 < UINT64_MOD ∧
    4096 + 18446744073709547520 > sample_va.size_B ∧
    4096 + 18446744073709547520 > sample_mem.size_B ∧
    nvkmd_va_bind_mem sample_tables sample_va 0 4096 sample_mem 4096 18446744073709547520
      = ⟨[Call.bind_mem sample_va 0 4096 sample_mem 4096 18446744073709547520],
         .returned (VK_SUCCESS, sample_va, sample_mem)⟩ := by
  refine ⟨by decide, by decide, by decide, ?_⟩
  simp [nvkmd_va_bind_mem, run_assert_bind, invoke, add_u64, UINT64_MOD, sample_va,
    sample_mem, sample_tables, sample_va_ops]

/-- C2, at a failing input: the 4 KiB sample range, offset 4096 and
`range_B = 2^64 - 4096`.  Both arguments are 64-bit values and the exact sum
is `2^64`, far above the size, yet the 64-bit sum wraps to 0, both assertions
pass and the backend's `unbind` is invoked. -/
theorem nvkmd_va_unbind_wraps :
    18446744073709547520 < UINT64_MOD ∧
    4096 + 18446744073709547520 > sample_va.size_B ∧
    nvkmd_va_unbind sample_tables sample_va 0 4096 18446744073709547520
      = ⟨[Call.unbind sample_va 0 4096 18446744073709547520],
         .returned (VK_SUCCESS, sample_va)⟩ := by
  refine ⟨by decide, by decide, ?_⟩
  simp [nvkmd_va_unbind, run_assert_bind, invoke, add_u64, UINT64_MOD, sample_va,
    sample_tables, sample_va_ops]

/-- The part of C2 the code keeps: an unbind within the exact bounds of a
range whose size is a 64-bit value passes both assertions, invokes the
backend's `unbind` exactly once with the same offset and range, and returns
what the backend produced. -/
theorem nvkmd_va_unbind_in_bounds (T : OpsTables) (va : nvkmd_va) (log_obj : Ptr)
    (va_offset_B range_B : Nat) (hsize : va.size_B < UINT64_MOD)
    (h : va_offset_B + range_B ≤ va.size_B) :
    nvkmd_va_unbind T va log_obj va_offset_B range_B
      = ⟨[Call.unbind va log_obj va_offset_B range_B],
         .returned ((T.va_ops va.ops).unbind va log_obj va_offset_B range_B)⟩ := by
  have hmod : UINT64_MOD = 2 ^ 64 := rfl
  have hsum : add_u64 va_offset_B range_B = va_offset_B + range_B :=
    add_u64_eq_of_le _ _ (by omega)
  have hoff : va_offset_B ≤ va.size_B := by omega
  simp [nvkmd_va_unbind, run_assert_bind, invoke, hsum, h, hoff]

/-- C10: when neither `va_offset_B + range_B` nor `mem_offset_B + range_B`
exceeds `2^64 - 1`, the four assertions of `nvkmd_va_bind_mem`, evaluated in
64-bit arithmetic, all pass if and only if `va_offset_B + range_B ≤ va.size_B`
and `mem_offset_B + range_B ≤ mem.size_B`, and the wrapper gets past them
exactly then.  When they pass, the backend's `bind_mem` is invoked exactly
once with the same `va`, `va_offset_B`, `mem`, `mem_offset_B` and `range_B`,
and the wrapper returns what the backend produced; it writes no field of `va`
or `mem` itself.  When they do not, no backend operation is invoked. -/
theorem nvkmd_va_bind_mem_no_wrap (T : OpsTables) (va : nvkmd_va) (log_obj : Ptr)
    (va_offset_B : Nat) (mem : nvkmd_mem) (mem_offset_B range_B : Nat)
    (hva : va_offset_B + range_B ≤ 2 ^ 64 - 1)
    (hmem : mem_offset_B + range_B ≤ 2 ^ 64 - 1) :
    ((va_offset_B ≤ va.size_B ∧ add_u64 va_offset_B range_B ≤ va.size_B ∧
        mem_offset_B ≤ mem.size_B ∧ add_u64 mem_offset_B range_B ≤ mem.size_B) ↔
      (va_offset_B + range_B ≤ va.size_B ∧ mem_offset_B + range_B ≤ mem.size_B)) ∧
    ((nvkmd_va_bind_mem T va log_obj va_offset_B mem mem_offset_B range_B).outcome
        ≠ .assert_failed ↔
      (va_offset_B + range_B ≤ va.size_B ∧ mem_offset_B + range_B ≤ mem.size_B)) ∧
    ((va_offset_B + range_B ≤ va.size_B ∧ mem_offset_B + range_B ≤ mem.size_B) →
      nvkmd_va_bind_mem T va log_obj va_offset_B mem mem_offset_B range_B
        = ⟨[Call.bind_mem va log_obj va_offset_B mem mem_offset_B range_B],
           .returned ((T.va_ops va.ops).bind_mem va log_obj va_offset_B mem
              mem_offset_B range_B)⟩) ∧
    (¬ (va_offset_B + range_B ≤ va.size_B ∧ mem_offset_B + range_B ≤ mem.size_B) →
      nvkmd_va_bind_mem T va log_obj va_offset_B mem mem_offset_B range_B
        = ⟨[], .assert_failed⟩) := by
  have hs1 : add_u64 va_offset_B range_B = va_offset_B + range_B :=
    add_u64_eq_of_le _ _ hva
  have hs2 : add_u64 mem_offset_B range_B = mem_offset_B + range_B :=
    add_u64_eq_of_le _ _ hmem
  have hpass : (va_offset_B + range_B ≤ va.size_B ∧ mem_offset_B + range_B ≤ mem.size_B) →
      nvkmd_va_bind_mem T va log_obj va_offset_B mem mem_offset_B range_B
        = ⟨[Call.bind_mem va log_obj va_offset_B mem mem_offset_B range_B],
           .returned ((T.va_ops va.ops).bind_mem va log_obj va_offset_B mem
              mem_offset_B range_B)⟩ := by
    rintro ⟨h1, h2⟩
    have h3 : va_offset_B ≤ va.size_B := by omega
    have h4 : mem_offset_B ≤ mem.size_B := by omega
    simp [nvkmd_va_bind_mem, run_assert_bind, invoke, hs1, hs2, h1, h2, h3, h4]
  have hfail : ¬ (va_offset_B + range_B ≤ va.size_B ∧ mem_offset_B + range_B ≤ mem.size_B) →
      nvkmd_va_bind_mem T va log_obj va_offset_B mem mem_offset_B range_B
        = ⟨[], .assert_failed⟩ := by
    intro h
    simp only [nvkmd_va_bind_mem, run_assert_bind, hs1, hs2]
    by_cases h1 : va_offset_B + range_B ≤ va.size_B
    · have h2 : ¬ mem_offset_B + range_B ≤ mem.size_B := fun h2 => h ⟨h1, h2⟩
      simp [h2]
    · simp [h1]
  refine ⟨?_, ?_, hpass, hfail⟩
  · rw [hs1, hs2]
    constructor
    · rintro ⟨_, h1, _, h2⟩; exact ⟨h1, h2⟩
    · rintro ⟨h1, h2⟩; exact ⟨by omega, h1, by omega, h2⟩
  · constructor
    · intro h
      by_contra hn
      rw [hfail hn] at h
      exact h rfl
    · intro h
      rw [hpass h]
      simp

/-- C10, on the sample backend: binding the whole sample memory object at
offset 0 of the sample range passes the assertions and reaches the backend. -/
theorem nvkmd_va_bind_mem_no_wrap_witness :
    nvkmd_va_bind_mem sample_tables sample_va 0 0 sample_mem 0 4096
      = ⟨[Call.bind_mem sample_va 0 0 sample_mem 0 4096],
         .returned (VK_SUCCESS, sample_va, sample_mem)⟩ :=
  (nvkmd_va_bind_mem_no_wrap sample_tables sample_va 0 0 sample_mem 0 4096
    (by decide) (by decide)).2.2.1 ⟨by decide, by decide⟩

end Nvkmd
